import Mathlib

/-!
Verification development for the generation-validation-retry pipeline of the
repository (code validators in `code_validator.py`, schema completeness in
`validate_agent_specification.py`, and the retry orchestrator in
`generate_agent_code.py`).

The Python code is shallowly embedded:
* program text is a `String` (a list of characters); the Python `ast` parser is
  an external collaborator, so a validator's input is the parse outcome
  (`ParseOutcome`) together with the raw text;
* the parsed structural tree is the inductive `PyStmt` / `PyExpr` subset of the
  Python AST that the validators inspect;
* Python float scores are modelled as exact rationals (`ℚ`); every increment in
  the source is a decimal constant, and at every value the claims touch
  (0.4 from one denied import, 0.1 + 0.1 + 0.1 + 0.1 + 0.1 = 0.5, min with 1.0,
  the comparison with the 0.5 threshold) the IEEE double computation performed
  by the source agrees exactly with the rational one;
* exceptions are modelled as explicit outcome values.
-/

/-- Severity / category / message record, embedding `ValidationIssue`
(`code_validator.py`). `severity` is one of "ERROR", "WARNING", "INFO" and
`issue_type` one of "syntax", "security", "quality", exactly as the source
stores them as strings. -/
structure ValidationIssue where
  severity : String
  issue_type : String
  message : String
  line_number : Nat := 0
  suggestion : String := ""
deriving DecidableEq, Repr

/-- Embedding of `ValidationResult` (`code_validator.py`). `risk_score` is the
float field, modelled as a rational. -/
structure ValidationResult where
  valid : Bool
  issues : List ValidationIssue := []
  risk_score : ℚ := 0
  summary : String := ""
deriving DecidableEq, Repr

/-- `DANGEROUS_FUNCTIONS` from `code_validator.py` (a Python set used only for
membership tests, modelled as a list). -/
def DANGEROUS_FUNCTIONS : List String :=
  ["eval", "exec", "compile", "__import__", "execfile", "input", "open"]

/-- `DANGEROUS_IMPORTS` from `code_validator.py`. -/
def DANGEROUS_IMPORTS : List String :=
  ["subprocess", "socket", "urllib", "pickle", "marshal", "ctypes", "cffi"]

/-- `CONDITIONAL_IMPORTS` from `code_validator.py`: module name to allow-list of
attribute names. -/
def CONDITIONAL_IMPORTS : List (String × List String) :=
  [("os", ["getenv", "environ.get", "path"]),
   ("sys", ["argv", "exit"]),
   ("requests", [])]

/-- `ALLOWED_IMPORTS` from `code_validator.py`. -/
def ALLOWED_IMPORTS : List String :=
  ["typing", "dataclasses", "enum", "abc", "collections",
   "datetime", "decimal", "fractions", "math", "statistics",
   "json", "re", "pathlib",
   "pydantic", "loguru", "sqlalchemy", "psycopg2",
   "langchain", "langchain_openai", "langgraph",
   "yaml", "httpx",
   "os", "sys", "requests"]

mutual
/-- Expression subset of the Python AST that `code_validator.py` inspects:
`ast.Name`, `ast.Attribute`, `ast.Call` (with the node's `lineno`, the only
expression line number the validator reads, via `getattr(node, 'lineno', 0)`),
and a constant leaf for literals. -/
inductive PyExpr where
  | name (id : String)
  | attribute (value : PyExpr) (attr : String)
  | call (lineno : Nat) (func : PyExpr) (args : List PyExpr)
  | const (s : String)

/-- Statement subset of the Python AST that the validators inspect:
`ast.Import` (one node carrying a list of dotted alias names and its `lineno`),
`ast.ImportFrom` (`node.module` may be `None` for relative imports),
`ast.FunctionDef`, `ast.ClassDef`, plus expression statements and simple
assignments as carriers for nested expressions. Line numbers are kept only on
the nodes whose `lineno` the validator reads. -/
inductive PyStmt where
  | importStmt (lineno : Nat) (names : List String)
  | importFrom (lineno : Nat) (module : Option String) (names : List String)
  | functionDef (nm : String) (body : List PyStmt)
  | classDef (nm : String) (body : List PyStmt)
  | exprStmt (e : PyExpr)
  | assign (target : String) (value : PyExpr)
  | passStmt
end

/-- A node yielded by the tree traversal, as `ast.walk` yields every statement
and expression node. -/
inductive PyNode where
  | stmt (s : PyStmt)
  | expr (e : PyExpr)

mutual
/-- All nodes of a statement, the statement itself included (the embedding of
`ast.walk` restricted to one root; `ast.walk` is breadth-first while this
listing is depth-first - every check below filters this list by node kind and
none of the verified properties depends on the traversal order). -/
def stmtWalk : PyStmt → List PyNode
  | s@(.importStmt _ _) => [.stmt s]
  | s@(.importFrom _ _ _) => [.stmt s]
  | s@(.functionDef _ body) => .stmt s :: stmtsWalk body
  | s@(.classDef _ body) => .stmt s :: stmtsWalk body
  | s@(.exprStmt e) => .stmt s :: exprWalk e
  | s@(.assign _ e) => .stmt s :: exprWalk e
  | s@(.passStmt) => [.stmt s]

/-- All nodes of a list of statements. -/
def stmtsWalk : List PyStmt → List PyNode
  | [] => []
  | s :: rest => stmtWalk s ++ stmtsWalk rest

/-- All nodes of an expression, itself included. -/
def exprWalk : PyExpr → List PyNode
  | e@(.name _) => [.expr e]
  | e@(.attribute v _) => .expr e :: exprWalk v
  | e@(.call _ f args) => .expr e :: (exprWalk f ++ exprsWalk args)
  | e@(.const _) => [.expr e]

/-- All nodes of a list of expressions. -/
def exprsWalk : List PyExpr → List PyNode
  | [] => []
  | e :: rest => exprWalk e ++ exprsWalk rest
end

/-- How `validate_code_security` resolves the called name of an `ast.Call`:
`node.func.id` for a `Name`, `node.func.attr` for an `Attribute`, else none. -/
def resolveCallName : PyExpr → Option String
  | .name id => some id
  | .attribute _ attr => some attr
  | _ => none

/-- Check 1 of `validate_code_security` at a single walked node: a call whose
resolved name is in `DANGEROUS_FUNCTIONS` yields an ERROR issue and a +0.3 risk
increment. -/
def check1One : PyNode → Option (ValidationIssue × ℚ)
  | .expr (.call lineno f _) =>
    match resolveCallName f with
    | some fn =>
      if DANGEROUS_FUNCTIONS.contains fn then
        some (⟨"ERROR", "security", "Dangerous function call: " ++ fn ++ "()",
               lineno, "Remove " ++ fn ++ "() - not allowed in generated agents"⟩,
              (3 : ℚ)/10)
      else none
    | none => none
  | _ => none

/-- Check 1 over the whole walk (dangerous function calls). -/
def check1Findings (nodes : List PyNode) : List (ValidationIssue × ℚ) :=
  nodes.filterMap check1One

/-- Root package of a dotted module name: `alias.name.split('.')[0]`, i.e. the
prefix before the first dot. -/
def rootModule (nm : String) : String := (nm.toList.takeWhile (· ≠ '.')).asString

/-- Check 2 of `validate_code_security` at a single walked node (import
policy). An `ast.Import` processes each alias: denied module yields an ERROR
and +0.4 risk; a conditional module yields nothing here (it is only recorded
for check 2b); a module that is neither allowed nor `meta_agent`-prefixed
yields a WARNING and +0.1 risk. An `ast.ImportFrom` only has the denied and
conditional branches (no uncommon-import warning). The `imported_modules` set
collected by the source is never read afterwards and is not modelled. -/
def check2One : PyNode → List (ValidationIssue × ℚ)
  | .stmt (.importStmt lineno names) =>
    names.flatMap fun nm =>
      let module := rootModule nm
      if DANGEROUS_IMPORTS.contains module then
        [(⟨"ERROR", "security", "Dangerous import: " ++ module, lineno,
           "Remove 'import " ++ module ++ "' - not allowed"⟩, (4 : ℚ)/10)]
      else if (CONDITIONAL_IMPORTS.lookup module).isSome then []
      else if !ALLOWED_IMPORTS.contains module &&
          !("meta_agent".toList.isPrefixOf module.toList) then
        [(⟨"WARNING", "security", "Uncommon import: " ++ module, lineno,
           "Verify " ++ module ++ " is necessary and safe"⟩, (1 : ℚ)/10)]
      else []
  | .stmt (.importFrom lineno (some m) _) =>
    let module := rootModule m
    if DANGEROUS_IMPORTS.contains module then
      [(⟨"ERROR", "security", "Dangerous import: from " ++ module, lineno,
         "Remove 'from " ++ module ++ " import ...' - not allowed"⟩, (4 : ℚ)/10)]
    else []
  | _ => []

/-- Check 2 over the whole walk. -/
def check2Findings (nodes : List PyNode) : List (ValidationIssue × ℚ) :=
  nodes.flatMap check2One

/-- The `conditional_modules` map built during check 2: the conditionally
allowed modules that were imported (by `import` or `from ... import`). The
source stores the allow-list as the value; since the value always equals the
`CONDITIONAL_IMPORTS` entry, recording the keys is equivalent and the allow
list is looked up again in check 2b. -/
def conditionalModules (nodes : List PyNode) : List String :=
  nodes.flatMap fun nd =>
    match nd with
    | .stmt (.importStmt _ names) =>
      names.filterMap fun nm =>
        let module := rootModule nm
        if DANGEROUS_IMPORTS.contains module then none
        else if (CONDITIONAL_IMPORTS.lookup module).isSome then some module
        else none
    | .stmt (.importFrom _ (some m) _) =>
      let module := rootModule m
      if DANGEROUS_IMPORTS.contains module then []
      else if (CONDITIONAL_IMPORTS.lookup module).isSome then [module]
      else []
    | _ => []

/-- Check 2b of `validate_code_security` at a single node: a call
`module.func(...)` where `module` is a tracked conditional module with a
non-empty allow-list and `func` is outside the allow-list yields an ERROR and
+0.3 risk. (The source's other branch, recognising `os.environ.get(...)`, does
nothing and is not modelled.) -/
def check2bOne (condMods : List String) : PyNode → Option (ValidationIssue × ℚ)
  | .expr (.call lineno (.attribute (.name module_name) func_name) _) =>
    if condMods.contains module_name then
      let allowed_funcs := (CONDITIONAL_IMPORTS.lookup module_name).getD []
      if !allowed_funcs.isEmpty && !allowed_funcs.contains func_name then
        some (⟨"ERROR", "security",
               "Unsafe usage of " ++ module_name ++ "." ++ func_name ++ "()",
               lineno,
               "Only " ++ String.intercalate ", " allowed_funcs ++
                 " are allowed for " ++ module_name⟩, (3 : ℚ)/10)
      else none
    else none
  | _ => none

/-- Check 2b over the whole walk. -/
def check2bFindings (nodes : List PyNode) (condMods : List String) :
    List (ValidationIssue × ℚ) :=
  nodes.filterMap (check2bOne condMods)

/-- Check 4 of `validate_code_security`: more than 50 `FunctionDef` nodes yield
a quality WARNING with no risk increment (the source also counts `ClassDef`
nodes into `class_count` but never uses that number). -/
def check4Findings (nodes : List PyNode) : List (ValidationIssue × ℚ) :=
  let function_count := nodes.countP fun nd =>
    match nd with | .stmt (.functionDef _ _) => true | _ => false
  if 50 < function_count then
    [(⟨"WARNING", "quality", "Very high function count: " ++ toString function_count,
       0, "Consider breaking into multiple files"⟩, 0)]
  else []

/-- ASCII word character, the `\w` class of the source's credential patterns
(the patterns are scanned over generated program text, which is ASCII; the
Unicode extension of `\w` is not modelled). -/
def isWordChar (c : Char) : Bool := c.isAlphanum || c = '_'

/-- ASCII whitespace, the `\s` class of the source's patterns. -/
def isSpaceChar (c : Char) : Bool :=
  c = ' ' || c = '\t' || c = '\n' || c = '\r' || c = '\x0b' || c = '\x0c'

/-- A quote character, the `["\']` class. -/
def isQuoteChar (c : Char) : Bool := c = '"' || c = '\''

/-- Length of the maximal leading run of characters satisfying `p`. -/
def runLength (p : Char → Bool) : List Char → Nat
  | [] => 0
  | c :: rest => if p c then runLength p rest + 1 else 0

/-- The body character class of a credential pattern: `\w` for the password
pattern, `[^"\'\n]` for the api-key / secret / token patterns. Encoded as a
first-order tag so pattern equality stays decidable. -/
inductive CredBody where
  | word
  | nonQuote
deriving DecidableEq, Repr

/-- The character predicate of a body class. -/
def CredBody.pred : CredBody → Char → Bool
  | .word => isWordChar
  | .nonQuote => fun c => !isQuoteChar c && c ≠ '\n'

/-- One of the four `hardcoded_patterns` of `validate_code_security`:
`kw\s*=\s*["\']BODY{minLen,}["\']` with the message it reports. -/
structure CredPattern where
  kw : String
  minLen : Nat
  body : CredBody
  message : String
deriving DecidableEq, Repr

/-- The `hardcoded_patterns` list of `validate_code_security`. -/
def hardcodedPatterns : List CredPattern :=
  [⟨"password", 3, .word, "Hardcoded password"⟩,
   ⟨"api_key", 8, .nonQuote, "Hardcoded API key"⟩,
   ⟨"secret", 8, .nonQuote, "Hardcoded secret"⟩,
   ⟨"token", 8, .nonQuote, "Hardcoded token"⟩]

/-- Case-insensitive literal match: consumes `kw` (stored lowercase; the
patterns' literals are lowercase and matching is `re.IGNORECASE`) at the head
of `cs` and returns the rest. -/
def matchKwCI : List Char → List Char → Option (List Char)
  | [], cs => some cs
  | _ :: _, [] => none
  | k :: kw, c :: cs => if c.toLower = k then matchKwCI kw cs else none

/-- Match one credential pattern at the head of `cs`; returns the length of the
match. The pattern `kw\s*=\s*["\']B{m,}["\']` is deterministic: every body
character class excludes quotes, so the only candidate closing quote is the
character right after the maximal body run, and `\s*` is likewise followed by a
non-space literal. -/
def matchCredAt (p : CredPattern) (cs : List Char) : Option Nat :=
  match matchKwCI p.kw.toList cs with
  | none => none
  | some rest1 =>
    let s1 := runLength isSpaceChar rest1
    match rest1.drop s1 with
    | '=' :: rest3 =>
      let s2 := runLength isSpaceChar rest3
      match rest3.drop s2 with
      | q :: rest5 =>
        if isQuoteChar q then
          let r := runLength p.body.pred rest5
          if p.minLen ≤ r then
            match rest5.drop r with
            | c :: _ =>
              if isQuoteChar c then
                some (p.kw.length + s1 + 1 + s2 + 1 + r + 1)
              else none
            | [] => none
          else none
        else none
      | [] => none
    | _ => none

/-- `re.finditer` for one credential pattern: non-overlapping matches, scanning
left to right, each reported as (start, end) offsets into the text. A match is
never empty (its length counts at least the keyword, the `=` and two quotes),
so after a match at `c :: rest` of length `len` the scan resumes at
`rest.drop (len - 1)`, which is the text dropped by `len`. The scan consumes at
least one character per step, so running it with the text's length as fuel
(structural recursion, so that evaluation stays definitional) covers the whole
text. -/
def credMatchesAux (p : CredPattern) : Nat → List Char → Nat → List (Nat × Nat)
  | 0, _, _ => []
  | _ + 1, [], _ => []
  | fuel + 1, c :: rest, i =>
    match matchCredAt p (c :: rest) with
    | some len => (i, i + len) :: credMatchesAux p fuel (rest.drop (len - 1)) (i + len)
    | none => credMatchesAux p fuel rest (i + 1)

/-- All matches of one credential pattern in the text. -/
def credMatches (p : CredPattern) (cs : List Char) : List (Nat × Nat) :=
  credMatchesAux p cs.length cs 0

/-- Whether `needle` occurs in `hay` (used for the substring-shaped safe
patterns, searched case-sensitively as the source compiles them without
flags). -/
def hasSub (needle : List Char) : List Char → Bool
  | [] => needle.isEmpty
  | c :: rest => needle.isPrefixOf (c :: rest) || hasSub needle rest

/-- Whether `=\s*Q₁Q₂` (an assignment of an empty string literal, with the
given two quote classes) matches at the head of `cs`. -/
def eqEmptyAt (q1 q2 : Char → Bool) (cs : List Char) : Bool :=
  match cs with
  | '=' :: rest =>
    let s := runLength isSpaceChar rest
    match rest.drop s with
    | c1 :: c2 :: _ => q1 c1 && q2 c2
    | _ => false
  | _ => false

/-- `re.search` of `=\s*Q₁Q₂` anywhere in the line. -/
def hasEqEmpty (q1 q2 : Char → Bool) : List Char → Bool
  | [] => false
  | c :: rest => eqEmptyAt q1 q2 (c :: rest) || hasEqEmpty q1 q2 rest

/-- The `safe_patterns` check of `validate_code_security`: the line matches one
of `os\.getenv\(`, `os\.environ`, `getenv\(`, `=\s*["\']["\']`, `=\s*""` or
`=\s*''`. -/
def isSafeLine (line : List Char) : Bool :=
  hasSub "os.getenv(".toList line ||
  hasSub "os.environ".toList line ||
  hasSub "getenv(".toList line ||
  hasEqEmpty isQuoteChar isQuoteChar line ||
  hasEqEmpty (· = '"') (· = '"') line ||
  hasEqEmpty (· = '\'') (· = '\'') line

/-- Index one past the last newline strictly before `start`
(`code.rfind('\n', 0, match.start()) + 1`): the start of the enclosing line. -/
def lineStartIdx (cs : List Char) (start : Nat) : Nat :=
  ((cs.take start).enum.filterMap fun (i, c) => if c = '\n' then some (i + 1) else none).foldl max 0

/-- `code.find('\n', endPos)`: the first newline at or after `endPos`, if any. -/
def lineEndIdx (cs : List Char) (endPos : Nat) : Option Nat :=
  ((cs.enum.drop endPos).filterMap fun (i, c) => if c = '\n' then some i else none).head?

/-- The `matched_line` extraction
`code[code.rfind('\n', 0, match.start())+1 : code.find('\n', match.end())]`.
When there is no newline after the match, Python's `find` returns -1 and the
slice `code[a:-1]` drops the final character of the text; that quirk is kept. -/
def enclosingLine (cs : List Char) (m : Nat × Nat) : List Char :=
  let a := lineStartIdx cs m.1
  match lineEndIdx cs m.2 with
  | some b => (cs.take b).drop a
  | none => (cs.take (cs.length - 1)).drop a

/-- The 1-based line number reported for a match:
`code[:match.start()].count('\n') + 1`. -/
def matchLineNumber (cs : List Char) (m : Nat × Nat) : Nat :=
  (cs.take m.1).count '\n' + 1

/-- Check 3 for one match of one pattern: skipped when the enclosing line
matches a safe pattern, otherwise an ERROR with +0.3 risk at the match's line
number. -/
def matchFinding (message : String) (cs : List Char) (m : Nat × Nat) :
    Option (ValidationIssue × ℚ) :=
  if isSafeLine (enclosingLine cs m) then none
  else
    some (⟨"ERROR", "security", message, matchLineNumber cs m,
           "Use environment variables or config instead"⟩, (3 : ℚ)/10)

/-- Check 3 of `validate_code_security` (hardcoded credentials), pattern by
pattern over the raw text. -/
def check3Findings (cs : List Char) : List (ValidationIssue × ℚ) :=
  hardcodedPatterns.flatMap fun p =>
    (credMatches p cs).filterMap (matchFinding p.message cs)

/-- The outcome of `ast.parse` on a text, the external collaborator of every
validator. `syntaxError` carries `e.lineno` (optional in Python), `e.msg`, and
`str(e)`; `otherError` carries `str(e)` of a non-SyntaxError exception. -/
inductive ParseOutcome where
  | ok (body : List PyStmt)
  | syntaxError (lineno : Option Nat) (msg : String) (strE : String)
  | otherError (strE : String)

/-- Whether a parse outcome is a failure. -/
def ParseOutcome.isFailure : ParseOutcome → Bool
  | .ok _ => false
  | .syntaxError _ _ _ => true
  | .otherError _ => true

/-- All findings of the security checks, in the order the source accumulates
them: dangerous calls, import policy, conditional-usage policy, hardcoded
credentials, complexity. Each finding is the issue together with its risk
increment (the source appends the issue and adds the increment in one step). -/
def allSecurityFindings (body : List PyStmt) (code : String) :
    List (ValidationIssue × ℚ) :=
  let nodes := stmtsWalk body
  check1Findings nodes ++ check2Findings nodes ++
    check2bFindings nodes (conditionalModules nodes) ++
    check3Findings code.toList ++ check4Findings nodes

/-- Sum of the risk increments of a list of findings. -/
def riskSum (fs : List (ValidationIssue × ℚ)) : ℚ := (fs.map Prod.snd).sum

/-- Embedding of `validate_code_security` (`code_validator.py`). On a
successful parse it runs checks 1-4, caps the accumulated risk at 1.0 and sets
`valid = (no ERROR issue) and (risk_score < 0.5)`. Any exception inside the
body (in particular a parse failure of the text) lands in the `except` branch:
one ERROR issue, `risk_score = 1.0`, `valid = False`. The two-decimal float
formatting inside the summary strings is not modelled (the summary carries the
exact rational instead); nothing else reads the summary. -/
def validate_code_security (po : ParseOutcome) (code : String) : ValidationResult :=
  match po with
  | .ok body =>
    let findings := allSecurityFindings body code
    let issues := findings.map Prod.fst
    let risk_score := min (riskSum findings) 1
    let has_errors := issues.any fun i => i.severity == "ERROR"
    let is_safe := !has_errors && decide (risk_score < (1 : ℚ)/2)
    { valid := is_safe, issues := issues, risk_score := risk_score,
      summary := "Risk score: " ++ toString risk_score ++ ", " ++
        toString issues.length ++ " issues found" }
  | .syntaxError _ _ strE =>
    { valid := false,
      issues := [⟨"ERROR", "security", "Security validation failed: " ++ strE, 0,
                  "Fix syntax errors first"⟩],
      risk_score := 1,
      summary := "Validation failed: " ++ strE }
  | .otherError strE =>
    { valid := false,
      issues := [⟨"ERROR", "security", "Security validation failed: " ++ strE, 0,
                  "Fix syntax errors first"⟩],
      risk_score := 1,
      summary := "Validation failed: " ++ strE }

/-- Embedding of `validate_code_syntax` (`code_validator.py`; the name is
shortened to `syn`). On a successful parse: a WARNING when the module body is
empty, a WARNING when the walk holds neither a `ClassDef` nor a `FunctionDef`,
and `valid = (no ERROR issue)`. A `SyntaxError` from the parser yields exactly
one ERROR issue of category `syntax` with `line_number = e.lineno or 0`; any
other exception yields exactly one ERROR issue of category `syntax` at line 0. -/
def validate_code_syn (po : ParseOutcome) : ValidationResult :=
  match po with
  | .ok body =>
    let nodes := stmtsWalk body
    let emptyIssues : List ValidationIssue :=
      if body.isEmpty then
        [⟨"WARNING", "syntax", "Code is empty or contains only comments", 0,
          "Ensure code contains actual implementation"⟩]
      else []
    let has_class := nodes.any fun nd =>
      match nd with | .stmt (.classDef _ _) => true | _ => false
    let has_function := nodes.any fun nd =>
      match nd with | .stmt (.functionDef _ _) => true | _ => false
    let structIssues : List ValidationIssue :=
      if !has_class && !has_function then
        [⟨"WARNING", "syntax", "Code contains no classes or functions", 0,
          "Agent code should contain at least a class definition"⟩]
      else []
    let issues := emptyIssues ++ structIssues
    { valid := (issues.filter fun i => i.severity == "ERROR").length == 0,
      issues := issues,
      summary := "Syntax valid, " ++ toString issues.length ++ " warnings" }
  | .syntaxError lineno msg _ =>
    { valid := false,
      issues := [⟨"ERROR", "syntax", "Syntax error: " ++ msg, lineno.getD 0,
                  "Fix syntax error before proceeding"⟩],
      summary := "Syntax error at line " ++
        (match lineno with | some n => toString n | none => "None") ++ ": " ++ msg }
  | .otherError strE =>
    { valid := false,
      issues := [⟨"ERROR", "syntax", "Failed to parse code: " ++ strE, 0,
                  "Check code structure"⟩],
      summary := "Validation error: " ++ strE }

/-- Embedding of `validate_code` (`code_validator.py`), parametrised by the
security validator it invokes, so that "the security validation is never
invoked on unparsable text" is expressible: when the statement holds for every
`secv`, the result cannot depend on the security validator. The source parses
the same text once per validator; `ast.parse` is deterministic, so both see the
same `po`. -/
def validate_code_with (secv : ParseOutcome → String → ValidationResult)
    (po : ParseOutcome) (code : String) : ValidationResult :=
  let syntax_result := validate_code_syn po
  if !syntax_result.valid then syntax_result
  else
    let security_result := secv po code
    let all_issues := syntax_result.issues ++ security_result.issues
    let overall_valid := syntax_result.valid && security_result.valid
    { valid := overall_valid,
      issues := all_issues,
      risk_score := security_result.risk_score,
      summary := (if overall_valid then "✓ VALID" else "✗ INVALID") ++ " - " ++
        toString all_issues.length ++ " issues, risk: " ++
        toString security_result.risk_score }

/-- Embedding of `validate_code`: syntax validation first, then
`validate_code_security`. -/
def validate_code (po : ParseOutcome) (code : String) : ValidationResult :=
  validate_code_with validate_code_security po code

/-- A YAML scalar or container value, with just enough structure to decide the
Python truthiness tests the schema validator performs
(`validate_agent_specification.py`). -/
inductive YVal where
  | str (s : String)
  | int (n : Int)
  | bool (b : Bool)
  | list (xs : List YVal)
  | dict (kvs : List (String × YVal))
  | none

/-- Python truthiness of a YAML value (`spec[field]` used as a condition):
non-empty string / list / dict, non-zero int, `True`; `None` is falsy. -/
def YVal.truthy : YVal → Bool
  | .str s => !s.isEmpty
  | .int n => decide (n ≠ 0)
  | .bool b => b
  | .list xs => !xs.isEmpty
  | .dict kvs => !kvs.isEmpty
  | .none => false

/-- A parsed specification document: the top-level YAML mapping (keys are
unique, as YAML mappings guarantee). -/
def SpecDoc := List (String × YVal)

/-- The keys of `ValidateAgentSpecificationTool.REQUIRED_FIELDS` (the expected
types of the dict are used only by the type checks, not by the completeness
score). -/
def REQUIRED_SPEC_FIELDS : List String :=
  ["agent_name", "agent_type", "version", "description", "role",
   "capabilities", "workflow", "dependencies"]

/-- The keys of `ValidateAgentSpecificationTool.OPTIONAL_FIELDS`. -/
def OPTIONAL_SPEC_FIELDS : List String :=
  ["data_sources", "tools", "performance", "logging", "testing"]

/-- `field in spec and spec[field]`: present with a truthy value. -/
def fieldFilled (spec : SpecDoc) (field : String) : Bool :=
  match spec.lookup field with
  | some v => v.truthy
  | Option.none => false

/-- Embedding of `ValidateAgentSpecificationTool._calculate_completeness`: the
number of tracked required and optional fields present with a truthy value,
divided by the total number of tracked fields, times 100. -/
def calculate_completeness (spec : SpecDoc) : ℚ :=
  let total_fields : ℚ := REQUIRED_SPEC_FIELDS.length + OPTIONAL_SPEC_FIELDS.length
  let present_fields : ℚ :=
    ((REQUIRED_SPEC_FIELDS ++ OPTIONAL_SPEC_FIELDS).countP (fieldFilled spec) : ℚ)
  present_fields / total_fields * 100

/-- The structured content of a syntax failure reported by `_check_syntax`
(`generate_agent_code.py`): `e.lineno` and `e.msg` of the `SyntaxError` raised
by `ast.parse`. The source formats this as the string
`f"Syntax error at line {e.lineno}: {e.msg}"` and later re-extracts the line
number from that string (`int(syntax_error.split('line ')[1].split(':')[0])`);
the embedding keeps the pair and proves/uses the formatted string through
`synErrStr`, the round trip being the identity for every message the source
itself produces. `ast.parse` attaches a line number to every `SyntaxError`, so
`lineno` is a `Nat` here. The generic-exception branch of `_check_syntax`
("Parse error: ...") is not modelled. -/
structure SynErr where
  lineno : Nat
  msg : String
deriving DecidableEq, Repr

/-- The formatted validation-error string of `_check_syntax`. -/
def synErrStr (e : SynErr) : String :=
  "Syntax error at line " ++ toString e.lineno ++ ": " ++ e.msg

/-- One response of the LLM collaborator (`llm_client.generate`): generated
text, or a raised exception with its `str`. -/
inductive LLMResp where
  | text (s : String)
  | failure (msg : String)

/-- Outcome of one call of `generate_agent_code` (`generate_agent_code.py`):
the returned mapping's `code` entry, or a raised `ValueError`
(invalid YAML specification), or a raised `RuntimeError` (wrapping any
exception out of the LLM call). -/
inductive GenOutcome where
  | ok (code : String)
  | valueError (msg : String)
  | runtimeError (msg : String)

/-- Python's `str.strip()` over ASCII whitespace. -/
def pyStrip (cs : List Char) : List Char :=
  ((cs.dropWhile isSpaceChar).reverse.dropWhile isSpaceChar).reverse

/-- The fenced-code stripping of `generate_agent_code`: strip, drop a leading
"```python" (9 characters) then a leading "```", drop a trailing "```", strip
again. -/
def pyCleanCode (s : String) : String :=
  let code := pyStrip s.toList
  let code := if "```python".toList.isPrefixOf code then code.drop 9 else code
  let code := if "```".toList.isPrefixOf code then code.drop 3 else code
  let code :=
    if "```".toList.isSuffixOf code then code.take (code.length - 3) else code
  (pyStrip code).asString

/-- Embedding of `generate_agent_code`: `specErr` is the outcome of
`yaml.safe_load` on the YAML specification (an external collaborator; `some e`
is a raised `yaml.YAMLError` with text `e`), `resp` the LLM response for this
call. On success the returned code is the fence-stripped LLM text. The
metadata entries (line count, docstring/type-hint/error-handling flags, agent
name and type) decide nothing downstream and are not modelled. -/
def generate_agent_code (specErr : Option String) (resp : LLMResp) : GenOutcome :=
  match specErr with
  | some e => .valueError ("Invalid YAML specification: " ++ e)
  | Option.none =>
    match resp with
    | .failure e => .runtimeError ("Code generation failed: " ++ e ++
        ". This indicates an issue with LLM response.")
    | .text s => .ok (pyCleanCode s)

/-- The per-attempt debug path `f"/tmp/generated_code_attempt_{attempt + 1}.py"`. -/
def debugPath (attempt : Nat) : String :=
  "/tmp/generated_code_attempt_" ++ toString (attempt + 1) ++ ".py"

/-- Python's `str.split(sep)` for a one-character separator (keeps empty
segments, yields one segment even for the empty string). -/
def splitOnChar (sep : Char) : List Char → List (List Char)
  | [] => [[]]
  | c :: rest =>
    let r := splitOnChar sep rest
    if c = sep then [] :: r else (c :: r.headD []) :: r.tail

/-- The numbered context window around the error line that
`generate_agent_code_with_retry` builds for its feedback:
`code_lines[max(0, n-3) : min(len, n+2)]`, each line prefixed with its 1-based
number (`code.split('\n')` then `'\n'.join(...)`). -/
def contextWindow (code : String) (error_line_num : Nat) : String :=
  let code_lines := (splitOnChar '\n' code.toList).map List.asString
  let context_start := error_line_num - 3
  let context_end := min code_lines.length (error_line_num + 2)
  String.intercalate "\n"
    (((code_lines.take context_end).drop context_start).enumFrom context_start
      |>.map fun (i, line) => toString (i + 1) ++ ": " ++ line)

/-- The feedback text `generate_agent_code_with_retry` assigns to
`additional_instructions` after a failing attempt (the f-string block of the
source, verbatim). -/
def feedbackFor (code : String) (err : SynErr) : String :=
  "\n\n⚠️ PREVIOUS ATTEMPT FAILED WITH SYNTAX ERROR:\n" ++ synErrStr err ++
  "\n\nCode context around the error:\n" ++ contextWindow code err.lineno ++
  "\n\nCRITICAL FIX REQUIRED:\n" ++
  "1. The code MUST be syntactically valid Python\n" ++
  "2. ALL brackets, parentheses, and braces MUST be properly closed\n" ++
  "3. ALL function and class definitions MUST have proper bodies\n" ++
  "4. ALL strings MUST have matching quotes\n" ++
  "5. Check indentation carefully - Python requires consistent indentation\n" ++
  "6. DO NOT leave any incomplete statements\n" ++
  "7. DO NOT truncate the code - generate the COMPLETE implementation\n" ++
  "\nGenerate COMPLETE, VALID Python code. Every function must have a body. " ++
  "Every class must be complete.\n"

/-- The terminal `ValueError` message of the final failing attempt:
`f"Code generation failed after {max_retries} attempts. Last error:
{syntax_error}. Debug code at: {debug_path}"`. -/
def finalValueErrMsg (max_retries : Nat) (err : SynErr) (attempt : Nat) : String :=
  "Code generation failed after " ++ toString max_retries ++
  " attempts. Last error: " ++ synErrStr err ++ ". Debug code at: " ++
  debugPath attempt

/-- How a run of `generate_agent_code_with_retry` ends: the returned mapping
(its `code` and `retry_count` entries), or a propagated `ValueError`, or a
raised `RuntimeError`. -/
inductive RetryEnd where
  | success (code : String) (retry_count : Nat)
  | valueErrorRaised (msg : String)
  | runtimeErrorRaised (msg : String)
deriving DecidableEq, Repr

/-- A run of the retry orchestrator: how it ended, and (for observability) the
`additional_instructions` value passed to each `generate_agent_code` call, in
call order. The number of generator calls is the length of that list. -/
structure RetryRun where
  outcome : RetryEnd
  instructionsPerCall : List String
deriving DecidableEq, Repr

/-- The loop body of `generate_agent_code_with_retry`
(`for attempt in range(max_retries)`), in structural form: `remaining` is the
number of iterations left (`max_retries - attempt`), so the source's guard
`attempt < max_retries - 1` is `0 < remaining - 1` and
`attempt >= max_retries - 1` is `remaining = 1`. Per iteration:
a `ValueError` out of `generate_agent_code` is re-raised unchanged
(`except ValueError: raise`); any other exception (`except Exception`) is
swallowed and the loop retries unless this was the last attempt, in which case
a fresh `RuntimeError` naming the last error is raised; on generated code the
syntax check either returns the result with `retry_count = attempt`, or
replaces `additional_instructions` with the synthesized feedback and retries,
or on the last attempt raises the terminal `ValueError`. The debug-file write
of each attempt is I/O with no influence on control flow (only its path is
echoed in the terminal message). An exhausted `range` falls through to the
closing `RuntimeError`. -/
def retryLoop (specErr : Option String) (llm : Nat → LLMResp)
    (check : String → Option SynErr) (max_retries : Nat) :
    Nat → Nat → String → RetryRun
  | 0, _, _ => ⟨.runtimeErrorRaised "Code generation failed: Maximum retries reached", []⟩
  | remaining + 1, attempt, additional =>
    match generate_agent_code specErr (llm attempt) with
    | .valueError e => ⟨.valueErrorRaised e, [additional]⟩
    | .runtimeError e =>
      if remaining = 0 then
        ⟨.runtimeErrorRaised ("Code generation failed after " ++
          toString max_retries ++ " attempts: " ++ e), [additional]⟩
      else
        let rest := retryLoop specErr llm check max_retries remaining (attempt + 1)
          additional
        ⟨rest.outcome, additional :: rest.instructionsPerCall⟩
    | .ok code =>
      match check code with
      | Option.none => ⟨.success code attempt, [additional]⟩
      | some err =>
        if 0 < remaining then
          let rest := retryLoop specErr llm check max_retries remaining (attempt + 1)
            (feedbackFor code err)
          ⟨rest.outcome, additional :: rest.instructionsPerCall⟩
        else
          ⟨.valueErrorRaised (finalValueErrMsg max_retries err attempt), [additional]⟩

/-- Embedding of `generate_agent_code_with_retry` (`generate_agent_code.py`):
run the retry loop from attempt 0 with empty additional instructions. `llm`
gives the LLM collaborator's response to the i-th generation call and `check`
is `_check_syntax` (`ast.parse` on the generated code, an external
collaborator). -/
def generate_agent_code_with_retry (specErr : Option String) (llm : Nat → LLMResp)
    (check : String → Option SynErr) (max_retries : Nat) : RetryRun :=
  retryLoop specErr llm check max_retries max_retries 0 ""

/-- The number of call nodes in the walk whose resolved name is a denied
symbol, i.e. the nodes at which check 1 fires (each adds one ERROR and +0.3
risk). -/
def dangerousCallCount (body : List PyStmt) : Nat :=
  (stmtsWalk body).countP fun nd => (check1One nd).isSome

/-- An LLM collaborator whose first call raises (a backend failure wrapped by
`generate_agent_code` into a `RuntimeError`) and whose later calls return
syntactically valid code. -/
def llmFailThenOk : Nat → LLMResp :=
  fun i => if i = 0 then .failure "LLM backend unavailable" else .text "x = 1"

/-- A syntax check that accepts everything (`ast.parse` succeeds). -/
def checkAllOk : String → Option SynErr := fun _ => Option.none

/-- An LLM collaborator that always returns valid code. -/
def llmGood : Nat → LLMResp := fun _ => .text "x = 1"

/-- An LLM collaborator that always returns the same broken text. -/
def llmConstBad : Nat → LLMResp := fun _ => .text "x ="

/-- A syntax check under which exactly the text "x =" fails to parse. -/
def checkBad : String → Option SynErr :=
  fun s => if s = "x =" then some ⟨1, "invalid syntax"⟩ else Option.none

/-- An LLM collaborator returning the texts "A", "B", "C" on its three calls. -/
def llmABC : Nat → LLMResp :=
  fun i => .text (if i = 0 then "A" else if i = 1 then "B" else "C")

/-- A syntax check under which "A" and "B" fail with distinct errors and
everything else parses. -/
def checkABC : String → Option SynErr :=
  fun s => if s = "A" then some ⟨1, "EONE"⟩
    else if s = "B" then some ⟨1, "ETWO"⟩ else Option.none

/-- A module body importing five unknown modules in one import statement. -/
def bodyFiveUncommon : List PyStmt :=
  [.importStmt 1 ["foo_a", "foo_b", "foo_c", "foo_d", "foo_e"]]

/-- The text of `bodyFiveUncommon`. -/
def codeFiveUncommon : String := "import foo_a, foo_b, foo_c, foo_d, foo_e"

/-- A module body importing one unknown module. -/
def bodyOneUncommon : List PyStmt := [.importStmt 1 ["foo_x"]]

/-- The text of `bodyOneUncommon`. -/
def codeOneUncommon : String := "import foo_x"

/-- A specification document holding every tracked required and optional field
with a non-empty value. -/
def fullTrackedSpec : SpecDoc :=
  (REQUIRED_SPEC_FIELDS ++ OPTIONAL_SPEC_FIELDS).map fun f => (f, .str "x")

/-- A module body whose single statement is a call of `eval`. -/
def bodyEvalCall : List PyStmt := [.exprStmt (.call 1 (.name "eval") [])]

/-- The password credential pattern (first entry of `hardcodedPatterns`). -/
def pwPattern : CredPattern := ⟨"password", 3, .word, "Hardcoded password"⟩

/-- A text whose credential-shaped match sits on a line that also holds an
environment-variable lookup call. -/
def codeSafeCred : String := "password = \"abc\" # os.getenv(\"X\")\n"

lemma sec_ok_issues (body : List PyStmt) (code : String) :
    (validate_code_security (.ok body) code).issues =
      (allSecurityFindings body code).map Prod.fst := rfl

lemma sec_ok_risk (body : List PyStmt) (code : String) :
    (validate_code_security (.ok body) code).risk_score =
      min (riskSum (allSecurityFindings body code)) 1 := rfl

lemma sec_ok_valid (body : List PyStmt) (code : String) :
    (validate_code_security (.ok body) code).valid =
      (!((allSecurityFindings body code).map Prod.fst).any
          (fun i => i.severity == "ERROR") &&
        decide (min (riskSum (allSecurityFindings body code)) 1 < (1 : ℚ)/2)) := rfl

/-- C10: the security validator is total over parse outcomes (in this
embedding, by construction: every exception of the source's analysis body -
first of all a parse failure of the text - is an explicit `ParseOutcome`
value, and the function returns a `ValidationResult` on every input). On the
internal-failure branch the result is `valid = false`, exactly one
ERROR-severity issue, and `risk_score = 1.0`, for every text. -/
theorem claim_C10_security_total_on_failure (po : ParseOutcome) (code : String)
    (h : po.isFailure = true) :
    (validate_code_security po code).valid = false ∧
    (validate_code_security po code).issues.length = 1 ∧
    (∀ i ∈ (validate_code_security po code).issues, i.severity = "ERROR") ∧
    (validate_code_security po code).risk_score = 1 := by
  cases po with
  | ok body => simp [ParseOutcome.isFailure] at h
  | syntaxError lineno msg strE =>
    refine ⟨rfl, rfl, ?_, rfl⟩
    intro i hi
    simp only [validate_code_security, List.mem_singleton] at hi
    subst hi; rfl
  | otherError strE =>
    refine ⟨rfl, rfl, ?_, rfl⟩
    intro i hi
    simp only [validate_code_security, List.mem_singleton] at hi
    subst hi; rfl

/-- Witness for C10 at a concrete failing parse outcome. -/
theorem claim_C10_witness :
    (validate_code_security (.syntaxError (some 1) "invalid syntax"
        "invalid syntax (<unknown>, line 1)") "def f(:").valid = false ∧
    (validate_code_security (.syntaxError (some 1) "invalid syntax"
        "invalid syntax (<unknown>, line 1)") "def f(:").issues.length = 1 ∧
    (∀ i ∈ (validate_code_security (.syntaxError (some 1) "invalid syntax"
        "invalid syntax (<unknown>, line 1)") "def f(:").issues,
      i.severity = "ERROR") ∧
    (validate_code_security (.syntaxError (some 1) "invalid syntax"
        "invalid syntax (<unknown>, line 1)") "def f(:").risk_score = 1 :=
  claim_C10_security_total_on_failure
    (.syntaxError (some 1) "invalid syntax" "invalid syntax (<unknown>, line 1)")
    "def f(:" rfl

/-- C4: on every parse failure the syntax validator reports `valid = false`
with exactly one issue, that issue being ERROR-severity of category `syntax`,
and the combined validator short-circuits: for every security validator
`secv`, `validate_code_with secv` returns the syntax result unchanged, so the
security/policy validation is never invoked on such a text. -/
theorem claim_C4_parse_failure_short_circuit (po : ParseOutcome)
    (h : po.isFailure = true) :
    (validate_code_syn po).valid = false ∧
    (validate_code_syn po).issues.length = 1 ∧
    (∀ i ∈ (validate_code_syn po).issues,
      i.severity = "ERROR" ∧ i.issue_type = "syntax") ∧
    (∀ secv code, validate_code_with secv po code = validate_code_syn po) := by
  cases po with
  | ok body => simp [ParseOutcome.isFailure] at h
  | syntaxError lineno msg strE =>
    refine ⟨rfl, rfl, ?_, ?_⟩
    · intro i hi
      simp only [validate_code_syn, List.mem_singleton] at hi
      subst hi; exact ⟨rfl, rfl⟩
    · intro secv code
      simp [validate_code_with, validate_code_syn]
  | otherError strE =>
    refine ⟨rfl, rfl, ?_, ?_⟩
    · intro i hi
      simp only [validate_code_syn, List.mem_singleton] at hi
      subst hi; exact ⟨rfl, rfl⟩
    · intro secv code
      simp [validate_code_with, validate_code_syn]

/-- Witness for C4 at a concrete parse failure. -/
theorem claim_C4_witness :
    (validate_code_syn (.syntaxError (some 1) "invalid syntax"
        "invalid syntax (<unknown>, line 1)")).valid = false ∧
    (validate_code_syn (.syntaxError (some 1) "invalid syntax"
        "invalid syntax (<unknown>, line 1)")).issues.length = 1 ∧
    (∀ i ∈ (validate_code_syn (.syntaxError (some 1) "invalid syntax"
        "invalid syntax (<unknown>, line 1)")).issues,
      i.severity = "ERROR" ∧ i.issue_type = "syntax") ∧
    (∀ secv code, validate_code_with secv
        (.syntaxError (some 1) "invalid syntax"
          "invalid syntax (<unknown>, line 1)") code =
      validate_code_syn (.syntaxError (some 1) "invalid syntax"
        "invalid syntax (<unknown>, line 1)")) :=
  claim_C4_parse_failure_short_circuit
    (.syntaxError (some 1) "invalid syntax" "invalid syntax (<unknown>, line 1)") rfl

/-- C9: a text whose only statement imports a denied module yields exactly one
issue (the ERROR for the denied import), `risk_score = 0.4` and
`valid = false`. -/
theorem claim_C9_denied_import_alone (m : String) (hm : m ∈ DANGEROUS_IMPORTS) :
    (validate_code_security (.ok [.importStmt 1 [m]]) ("import " ++ m)).valid
      = false ∧
    (validate_code_security (.ok [.importStmt 1 [m]]) ("import " ++ m)).issues
      = [⟨"ERROR", "security", "Dangerous import: " ++ m, 1,
          "Remove 'import " ++ m ++ "' - not allowed"⟩] ∧
    (validate_code_security (.ok [.importStmt 1 [m]]) ("import " ++ m)).risk_score
      = (4 : ℚ)/10 := by
  have h : allSecurityFindings [.importStmt 1 [m]] ("import " ++ m) =
      [(⟨"ERROR", "security", "Dangerous import: " ++ m, 1,
         "Remove 'import " ++ m ++ "' - not allowed"⟩, (4 : ℚ)/10)] := by
    simp only [DANGEROUS_IMPORTS, List.mem_cons, List.not_mem_nil, or_false] at hm
    rcases hm with rfl | rfl | rfl | rfl | rfl | rfl | rfl <;> rfl
  refine ⟨?_, ?_, ?_⟩
  · rw [sec_ok_valid, h]; rfl
  · rw [sec_ok_issues, h]; rfl
  · rw [sec_ok_risk, h]
    simp only [riskSum, List.map_cons, List.map_nil, List.sum_cons, List.sum_nil,
      add_zero]
    rw [min_eq_left (by norm_num : (4 : ℚ)/10 ≤ 1)]

/-- Witness for C9 at the denied module `subprocess`. -/
theorem claim_C9_witness :
    (validate_code_security (.ok [.importStmt 1 ["subprocess"]])
        "import subprocess").valid = false ∧
    (validate_code_security (.ok [.importStmt 1 ["subprocess"]])
        "import subprocess").issues
      = [⟨"ERROR", "security", "Dangerous import: subprocess", 1,
          "Remove 'import subprocess' - not allowed"⟩] ∧
    (validate_code_security (.ok [.importStmt 1 ["subprocess"]])
        "import subprocess").risk_score = (4 : ℚ)/10 :=
  claim_C9_denied_import_alone "subprocess" (by decide)

/-- Counterexample to C5: on a document where every tracked field is present
and non-empty the completeness score is 100.0 (the score is computed on a
0-100 scale, as the pydantic validator bound `0 <= v <= 100` confirms), so the
score does not lie in [0, 1] and does not equal 1.0 there. -/
theorem claim_C5_counterexample :
    calculate_completeness fullTrackedSpec = 100 ∧
    ¬calculate_completeness fullTrackedSpec ≤ 1 := by
  have hc : (REQUIRED_SPEC_FIELDS ++ OPTIONAL_SPEC_FIELDS).countP
      (fieldFilled fullTrackedSpec) = 13 := by decide
  have hval : calculate_completeness fullTrackedSpec = 100 := by
    unfold calculate_completeness
    rw [hc]
    norm_num [REQUIRED_SPEC_FIELDS, OPTIONAL_SPEC_FIELDS]
  exact ⟨hval, by rw [hval]; norm_num⟩

/-- C5 as amended: the completeness score lies in [0, 100], and it equals
100.0 exactly when every tracked required and optional field is present with a
truthy (non-empty) value. -/
theorem claim_C5_amended (spec : SpecDoc) :
    0 ≤ calculate_completeness spec ∧
    calculate_completeness spec ≤ 100 ∧
    (calculate_completeness spec = 100 ↔
      ∀ f ∈ REQUIRED_SPEC_FIELDS ++ OPTIONAL_SPEC_FIELDS, fieldFilled spec f = true) := by
  have hle : (REQUIRED_SPEC_FIELDS ++ OPTIONAL_SPEC_FIELDS).countP (fieldFilled spec)
      ≤ 13 := by
    calc (REQUIRED_SPEC_FIELDS ++ OPTIONAL_SPEC_FIELDS).countP (fieldFilled spec)
        ≤ (REQUIRED_SPEC_FIELDS ++ OPTIONAL_SPEC_FIELDS).length :=
          List.countP_le_length _
      _ = 13 := rfl
  have hval : calculate_completeness spec =
      ((REQUIRED_SPEC_FIELDS ++ OPTIONAL_SPEC_FIELDS).countP (fieldFilled spec) : ℚ)
        / 13 * 100 := by
    unfold calculate_completeness
    norm_num [REQUIRED_SPEC_FIELDS, OPTIONAL_SPEC_FIELDS]
  rw [hval]
  refine ⟨by positivity, ?_, ?_⟩
  · rw [div_mul_eq_mul_div, div_le_iff₀ (by norm_num : (0 : ℚ) < 13)]
    have : (((REQUIRED_SPEC_FIELDS ++ OPTIONAL_SPEC_FIELDS).countP
        (fieldFilled spec) : ℚ)) ≤ 13 := by exact_mod_cast hle
    linarith
  · rw [div_mul_eq_mul_div, div_eq_iff (by norm_num : (13 : ℚ) ≠ 0)]
    constructor
    · intro h
      have hk : ((REQUIRED_SPEC_FIELDS ++ OPTIONAL_SPEC_FIELDS).countP
          (fieldFilled spec) : ℚ) = 13 := by linarith
      have hk2 : (REQUIRED_SPEC_FIELDS ++ OPTIONAL_SPEC_FIELDS).countP
          (fieldFilled spec) = 13 := by exact_mod_cast hk
      have hlen : (REQUIRED_SPEC_FIELDS ++ OPTIONAL_SPEC_FIELDS).countP
          (fieldFilled spec) = (REQUIRED_SPEC_FIELDS ++ OPTIONAL_SPEC_FIELDS).length :=
        hk2
      exact List.countP_eq_length.mp hlen
    · intro h
      have hk2 : (REQUIRED_SPEC_FIELDS ++ OPTIONAL_SPEC_FIELDS).countP
          (fieldFilled spec) = (REQUIRED_SPEC_FIELDS ++ OPTIONAL_SPEC_FIELDS).length :=
        List.countP_eq_length.mpr h
      rw [hk2]
      norm_num [REQUIRED_SPEC_FIELDS, OPTIONAL_SPEC_FIELDS]

/-- After a generator-side failure on every call, the loop retries until the
final attempt and then raises a fresh `RuntimeError` naming the last error;
the additional instructions are left unchanged by these iterations, so each
of the `r` generator calls receives the same instructions. -/
lemma retryLoop_allGenFail (llm : Nat → LLMResp) (f : Nat → String)
    (hf : ∀ i, llm i = .failure (f i)) (check : String → Option SynErr) (N : Nat) :
    ∀ r attempt add, 1 ≤ r →
      retryLoop Option.none llm check N r attempt add =
        ⟨.runtimeErrorRaised ("Code generation failed after " ++ toString N ++
          " attempts: " ++ ("Code generation failed: " ++ f (attempt + r - 1) ++
          ". This indicates an issue with LLM response.")), List.replicate r add⟩ := by
  intro r
  induction r with
  | zero => intro attempt add h; omega
  | succ r ih =>
    intro attempt add _
    have hgen : generate_agent_code Option.none (llm attempt) =
        .runtimeError ("Code generation failed: " ++ f attempt ++
          ". This indicates an issue with LLM response.") := by
      rw [hf attempt]; rfl
    rcases Nat.eq_zero_or_pos r with hr | hr
    · subst hr
      simp [retryLoop, hgen]
    · have h1 : r ≠ 0 := by omega
      simp only [retryLoop, hgen]
      rw [if_neg h1, ih (attempt + 1) add hr]
      have hidx : attempt + 1 + r - 1 = attempt + (r + 1) - 1 := by omega
      rw [hidx, List.replicate_succ]

/-- Counterexample to C1: a run in which the generation collaborator fails on
the first call (`generate_agent_code` wraps the LLM failure into a
`RuntimeError`) and succeeds on the second. The orchestrator catches the
failure (`except Exception`) and retries: the run ends in success with
`retry_count = 1` after two generator calls, so the failure neither propagated
immediately nor left further attempts unconsumed. -/
theorem claim_C1_counterexample :
    generate_agent_code_with_retry Option.none llmFailThenOk checkAllOk 5 =
      ⟨.success "x = 1" 1, ["", ""]⟩ := by
  rfl

/-- C1 as amended: only a `ValueError` out of the generation step (e.g. an
invalid YAML specification) propagates immediately and unchanged, after a
single generator call; every other generation-collaborator failure (the
`RuntimeError` wrapping an LLM error) is caught and retried, consuming all
attempts, and after the final attempt a new `RuntimeError` embedding the last
failure is raised. -/
theorem claim_C1_amended (n : Nat) (llm : Nat → LLMResp)
    (check : String → Option SynErr) (eMsg : String) (f : Nat → String) :
    (1 ≤ n →
      generate_agent_code_with_retry (some eMsg) llm check n =
        ⟨.valueErrorRaised ("Invalid YAML specification: " ++ eMsg), [""]⟩) ∧
    (1 ≤ n → (∀ i, llm i = .failure (f i)) →
      (generate_agent_code_with_retry Option.none llm check n).outcome =
        .runtimeErrorRaised ("Code generation failed after " ++ toString n ++
          " attempts: " ++ ("Code generation failed: " ++ f (n - 1) ++
          ". This indicates an issue with LLM response.")) ∧
      (generate_agent_code_with_retry Option.none llm check n).instructionsPerCall.length
        = n) := by
  constructor
  · intro hn
    obtain ⟨m, rfl⟩ : ∃ m, n = m + 1 := ⟨n - 1, by omega⟩
    rfl
  · intro hn hf
    unfold generate_agent_code_with_retry
    rw [retryLoop_allGenFail llm f hf check n n 0 "" hn]
    exact ⟨by simp, by simp⟩

/-- Witness for C1's amended statement: both branches discharged at concrete
inputs (one failing YAML parse; one LLM that always fails, with three
attempts). -/
theorem claim_C1_witness :
    (generate_agent_code_with_retry (some "bad yaml") llmGood checkAllOk 5 =
      ⟨.valueErrorRaised "Invalid YAML specification: bad yaml", [""]⟩) ∧
    ((generate_agent_code_with_retry Option.none
        (fun _ => .failure "boom") checkAllOk 3).outcome =
      .runtimeErrorRaised ("Code generation failed after " ++ toString 3 ++
        " attempts: " ++ ("Code generation failed: " ++ "boom" ++
        ". This indicates an issue with LLM response.")) ∧
      (generate_agent_code_with_retry Option.none
        (fun _ => .failure "boom") checkAllOk 3).instructionsPerCall.length = 3) :=
  ⟨(claim_C1_amended 5 llmGood checkAllOk "bad yaml" (fun _ => "boom")).1 (by omega),
   (claim_C1_amended 3 (fun _ => .failure "boom") checkAllOk "bad yaml"
      (fun _ => "boom")).2 (by omega) (fun _ => rfl)⟩

/-- One-step unfolding of the loop body (stated so rewriting never unfolds the
nested recursive call). -/
lemma retryLoop_succ (specErr : Option String) (llm : Nat → LLMResp)
    (check : String → Option SynErr) (N r attempt : Nat) (add : String) :
    retryLoop specErr llm check N (r + 1) attempt add =
      match generate_agent_code specErr (llm attempt) with
      | .valueError e => ⟨.valueErrorRaised e, [add]⟩
      | .runtimeError e =>
        if r = 0 then
          ⟨.runtimeErrorRaised ("Code generation failed after " ++
            toString N ++ " attempts: " ++ e), [add]⟩
        else
          ⟨(retryLoop specErr llm check N r (attempt + 1) add).outcome,
           add :: (retryLoop specErr llm check N r (attempt + 1) add).instructionsPerCall⟩
      | .ok code =>
        match check code with
        | Option.none => ⟨.success code attempt, [add]⟩
        | some err =>
          if 0 < r then
            ⟨(retryLoop specErr llm check N r (attempt + 1) (feedbackFor code err)).outcome,
             add :: (retryLoop specErr llm check N r (attempt + 1)
               (feedbackFor code err)).instructionsPerCall⟩
          else
            ⟨.valueErrorRaised (finalValueErrMsg N err attempt), [add]⟩ := rfl

/-- When the generator returns text on every call and every produced artifact
fails the syntax check, the loop runs through all remaining attempts: each
iteration replaces the additional instructions with the feedback synthesized
from the current failure, and the final attempt raises the terminal
`ValueError` carrying that attempt's error and debug path. -/
lemma retryLoop_allValFail (llm : Nat → LLMResp) (check : String → Option SynErr)
    (t : Nat → String) (e : Nat → SynErr)
    (hllm : ∀ i, llm i = .text (t i))
    (hchk : ∀ i, check (pyCleanCode (t i)) = some (e i)) (N : Nat) :
    ∀ r attempt add, 1 ≤ r →
      retryLoop Option.none llm check N r attempt add =
        ⟨.valueErrorRaised (finalValueErrMsg N (e (attempt + r - 1)) (attempt + r - 1)),
         add :: (List.range (r - 1)).map fun j =>
           feedbackFor (pyCleanCode (t (attempt + j))) (e (attempt + j))⟩ := by
  intro r
  induction r with
  | zero => intro _ _ h; omega
  | succ r ih =>
    intro attempt add _
    have hgen : generate_agent_code Option.none (llm attempt) =
        .ok (pyCleanCode (t attempt)) := by rw [hllm attempt]; rfl
    rcases Nat.eq_zero_or_pos r with hr | hr
    · subst hr
      simp only [retryLoop, hgen, hchk attempt]
      norm_num
    · obtain ⟨m, rfl⟩ : ∃ m, r = m + 1 := ⟨r - 1, by omega⟩
      rw [retryLoop_succ]
      simp only [hgen, hchk attempt]
      rw [if_pos hr, ih (attempt + 1)
        (feedbackFor (pyCleanCode (t attempt)) (e attempt)) hr]
      have hidx : attempt + 1 + (m + 1) - 1 = attempt + (m + 1 + 1) - 1 := by omega
      rw [hidx]
      have hrange : (List.range (m + 1 + 1 - 1)).map
          (fun j => feedbackFor (pyCleanCode (t (attempt + j))) (e (attempt + j))) =
          feedbackFor (pyCleanCode (t attempt)) (e attempt) ::
            (List.range (m + 1 - 1)).map
              (fun j => feedbackFor (pyCleanCode (t (attempt + 1 + j)))
                (e (attempt + 1 + j))) := by
        have h1 : m + 1 + 1 - 1 = m + 1 := by omega
        have h2 : m + 1 - 1 = m := by omega
        rw [h1, h2, List.range_succ_eq_map, List.map_cons, List.map_map]
        refine congrArg₂ _ (by norm_num) ?_
        refine List.map_congr_left fun j _ => ?_
        simp only [Function.comp_apply, Nat.succ_eq_add_one]
        have : attempt + (j + 1) = attempt + 1 + j := by omega
        rw [this]
      rw [hrange]

/-- C2: with `max_attempts = n >= 1`, (a) when the generator returns text on
every call and every artifact fails validation, the run makes exactly `n`
generator calls and ends in the terminal `ValueError` carrying the n-th
attempt's validation error and the n-th debug path; (b) when the first
artifact passes validation, the run makes exactly one generator call and
returns it with `retry_count = 0`. -/
theorem claim_C2_attempt_accounting (n : Nat) (llm : Nat → LLMResp)
    (check : String → Option SynErr) (t : Nat → String) (e : Nat → SynErr) :
    (1 ≤ n → (∀ i, llm i = .text (t i)) →
      (∀ i, check (pyCleanCode (t i)) = some (e i)) →
      (generate_agent_code_with_retry Option.none llm check n).outcome =
        .valueErrorRaised (finalValueErrMsg n (e (n - 1)) (n - 1)) ∧
      (generate_agent_code_with_retry Option.none llm check n).instructionsPerCall.length
        = n) ∧
    (1 ≤ n → llm 0 = .text (t 0) → check (pyCleanCode (t 0)) = Option.none →
      generate_agent_code_with_retry Option.none llm check n =
        ⟨.success (pyCleanCode (t 0)) 0, [""]⟩) := by
  constructor
  · intro hn hllm hchk
    unfold generate_agent_code_with_retry
    rw [retryLoop_allValFail llm check t e hllm hchk n n 0 "" hn]
    refine ⟨by norm_num, ?_⟩
    simp only [List.length_cons, List.length_map, List.length_range]
    omega
  · intro hn h0 hc0
    obtain ⟨m, rfl⟩ : ∃ m, n = m + 1 := ⟨n - 1, by omega⟩
    have hgen : generate_agent_code Option.none (llm 0) =
        .ok (pyCleanCode (t 0)) := by rw [h0]; rfl
    unfold generate_agent_code_with_retry
    simp only [retryLoop, hgen, hc0]

/-- Witness for C2: part (a) at three attempts that always produce the same
unparsable text, part (b) at a first attempt that parses. -/
theorem claim_C2_witness :
    ((generate_agent_code_with_retry Option.none llmConstBad checkBad 3).outcome =
      .valueErrorRaised (finalValueErrMsg 3 ⟨1, "invalid syntax"⟩ 2) ∧
      (generate_agent_code_with_retry Option.none llmConstBad
        checkBad 3).instructionsPerCall.length = 3) ∧
    (generate_agent_code_with_retry Option.none llmGood checkAllOk 5 =
      ⟨.success (pyCleanCode "x = 1") 0, [""]⟩) :=
  ⟨(claim_C2_attempt_accounting 3 llmConstBad checkBad (fun _ => "x =")
      (fun _ => ⟨1, "invalid syntax"⟩)).1 (by omega) (fun _ => rfl) (fun _ => rfl),
   (claim_C2_attempt_accounting 5 llmGood checkAllOk (fun _ => "x = 1")
      (fun _ => ⟨1, "invalid syntax"⟩)).2 (by omega) rfl rfl⟩

set_option maxRecDepth 4000 in
/-- Counterexample to C6: across two failing attempts the instructions passed
to the third generator call hold only the second failure's feedback; the first
failure's error text ("EONE"), present in the second call's instructions, is
gone from the third call's instructions, because the orchestrator assigns
(`additional_instructions = ...`) rather than appends. So the constraints
given to the generator do not grow monotonically. -/
theorem claim_C6_counterexample :
    (generate_agent_code_with_retry Option.none llmABC checkABC 3).instructionsPerCall =
      ["", feedbackFor "A" ⟨1, "EONE"⟩, feedbackFor "B" ⟨1, "ETWO"⟩] ∧
    hasSub "EONE".toList (feedbackFor "A" ⟨1, "EONE"⟩).toList = true ∧
    hasSub "EONE".toList (feedbackFor "B" ⟨1, "ETWO"⟩).toList = false ∧
    (generate_agent_code_with_retry Option.none llmABC checkABC 3).outcome =
      .success "C" 2 :=
  ⟨rfl, rfl, rfl, rfl⟩

/-- C6 as amended: in `generate_agent_code_with_retry` the feedback
synthesized after a failing attempt replaces the previous attempt's feedback
instead of accumulating: on a run whose every attempt fails validation, the
first generator call receives empty additional instructions and the (j+2)-nd
call receives exactly the feedback of the (j+1)-st failure, nothing else. -/
theorem claim_C6_amended (n : Nat) (llm : Nat → LLMResp)
    (check : String → Option SynErr) (t : Nat → String) (e : Nat → SynErr)
    (hn : 1 ≤ n) (hllm : ∀ i, llm i = .text (t i))
    (hchk : ∀ i, check (pyCleanCode (t i)) = some (e i)) :
    (generate_agent_code_with_retry Option.none llm check n).instructionsPerCall =
      "" :: (List.range (n - 1)).map fun j =>
        feedbackFor (pyCleanCode (t j)) (e j) := by
  unfold generate_agent_code_with_retry
  rw [retryLoop_allValFail llm check t e hllm hchk n n 0 "" hn]
  simp

/-- Witness for C6's amended statement at two attempts over a fixed failing
text. -/
theorem claim_C6_witness :
    (generate_agent_code_with_retry Option.none llmConstBad checkBad 2).instructionsPerCall =
      "" :: (List.range 1).map fun _ =>
        feedbackFor (pyCleanCode "x =") ⟨1, "invalid syntax"⟩ :=
  claim_C6_amended 2 llmConstBad checkBad (fun _ => "x =")
    (fun _ => ⟨1, "invalid syntax"⟩) (by omega) (fun _ => rfl) (fun _ => rfl)

lemma riskSum_cons (f : ValidationIssue × ℚ) (fs : List (ValidationIssue × ℚ)) :
    riskSum (f :: fs) = f.2 + riskSum fs := by
  simp [riskSum]

lemma riskSum_append (a b : List (ValidationIssue × ℚ)) :
    riskSum (a ++ b) = riskSum a + riskSum b := by
  simp [riskSum]

lemma riskSum_nonneg (fs : List (ValidationIssue × ℚ))
    (h : ∀ f ∈ fs, 0 ≤ f.2) : 0 ≤ riskSum fs := by
  refine List.sum_nonneg ?_
  intro x hx
  obtain ⟨f, hf, rfl⟩ := List.mem_map.mp hx
  exact h f hf

lemma riskSum_const (fs : List (ValidationIssue × ℚ)) (c : ℚ)
    (h : ∀ f ∈ fs, f.2 = c) : riskSum fs = (fs.length : ℚ) * c := by
  induction fs with
  | nil => simp [riskSum]
  | cons a l ih =>
    rw [riskSum_cons, h a (List.mem_cons_self a l),
      ih fun f hf => h f (List.mem_cons_of_mem a hf)]
    push_cast [List.length_cons]
    ring

lemma check1One_spec (nd : PyNode) (x : ValidationIssue × ℚ)
    (h : check1One nd = some x) : x.1.severity = "ERROR" ∧ x.2 = (3 : ℚ)/10 := by
  rcases nd with s | (id | ⟨v, a⟩ | ⟨lineno, f, args⟩ | s)
  · simp [check1One] at h
  · simp [check1One] at h
  · simp [check1One] at h
  · simp only [check1One] at h
    split at h
    · split at h
      · injection h with h2
        subst h2
        exact ⟨rfl, rfl⟩
      · exact absurd h (by simp)
    · exact absurd h (by simp)
  · simp [check1One] at h

lemma check2One_spec (nd : PyNode) (x : ValidationIssue × ℚ)
    (h : x ∈ check2One nd) :
    (x.1.severity = "ERROR" ∧ x.2 = (4 : ℚ)/10) ∨
    (x.1.severity = "WARNING" ∧ x.1.issue_type = "security" ∧ x.2 = (1 : ℚ)/10) := by
  cases nd with
  | expr ex => cases ex <;> simp [check2One] at h
  | stmt s =>
    cases s with
    | importStmt lineno names =>
      simp only [check2One, List.mem_flatMap] at h
      obtain ⟨nm, _, hx⟩ := h
      split at hx
      · simp only [List.mem_singleton] at hx
        subst hx; left; exact ⟨rfl, rfl⟩
      · split at hx
        · simp at hx
        · split at hx
          · simp only [List.mem_singleton] at hx
            subst hx; right; exact ⟨rfl, rfl, rfl⟩
          · simp at hx
    | importFrom lineno module names =>
      cases module with
      | none => simp [check2One] at h
      | some m =>
        simp only [check2One] at h
        split at h
        · simp only [List.mem_singleton] at h
          subst h; left; exact ⟨rfl, rfl⟩
        · simp at h
    | functionDef nm b => simp [check2One] at h
    | classDef nm b => simp [check2One] at h
    | exprStmt e => simp [check2One] at h
    | assign tg v => simp [check2One] at h
    | passStmt => simp [check2One] at h

lemma check2bOne_spec (cond : List String) (nd : PyNode) (x : ValidationIssue × ℚ)
    (h : check2bOne cond nd = some x) :
    x.1.severity = "ERROR" ∧ x.2 = (3 : ℚ)/10 := by
  rcases nd with s | (id | ⟨v, a⟩ | ⟨lineno, f, args⟩ | s)
  · simp [check2bOne] at h
  · simp [check2bOne] at h
  · simp [check2bOne] at h
  · rcases f with fid | ⟨fv, fa⟩ | ⟨l2, f2, a2⟩ | fs
    · simp [check2bOne] at h
    · rcases fv with mn | ⟨v2, a2⟩ | ⟨l3, f3, a3⟩ | cs
      · simp only [check2bOne] at h
        split at h
        · split at h
          · injection h with h2
            subst h2
            exact ⟨rfl, rfl⟩
          · exact absurd h (by simp)
        · exact absurd h (by simp)
      · simp [check2bOne] at h
      · simp [check2bOne] at h
      · simp [check2bOne] at h
    · simp [check2bOne] at h
    · simp [check2bOne] at h
  · simp [check2bOne] at h

lemma check3Findings_spec (cs : List Char) (x : ValidationIssue × ℚ)
    (h : x ∈ check3Findings cs) :
    x.1.severity = "ERROR" ∧ x.1.issue_type = "security" ∧ x.2 = (3 : ℚ)/10 := by
  simp only [check3Findings, List.mem_flatMap] at h
  obtain ⟨p, _, hx⟩ := h
  obtain ⟨m, _, hm⟩ := List.mem_filterMap.mp hx
  unfold matchFinding at hm
  split at hm
  · simp at hm
  · simp only [Option.some.injEq] at hm
    subst hm; exact ⟨rfl, rfl, rfl⟩

lemma check4Findings_spec (nodes : List PyNode) (x : ValidationIssue × ℚ)
    (h : x ∈ check4Findings nodes) :
    x.1.severity = "WARNING" ∧ x.1.issue_type = "quality" ∧ x.2 = 0 := by
  simp only [check4Findings] at h
  split at h
  · simp only [List.mem_singleton] at h
    subst h; exact ⟨rfl, rfl, rfl⟩
  · simp at h

lemma allSecurityFindings_snd_nonneg (body : List PyStmt) (code : String) :
    ∀ f ∈ allSecurityFindings body code, 0 ≤ f.2 := by
  intro f hf
  unfold allSecurityFindings at hf
  simp only [List.mem_append] at hf
  rcases hf with (((h | h) | h) | h) | h
  · obtain ⟨nd, _, hx⟩ := List.mem_filterMap.mp h
    rw [(check1One_spec nd f hx).2]; norm_num
  · obtain ⟨nd, _, hx⟩ := List.mem_flatMap.mp h
    rcases check2One_spec nd f hx with ⟨_, h2⟩ | ⟨_, _, h2⟩ <;> rw [h2] <;> norm_num
  · obtain ⟨nd, _, hx⟩ := List.mem_filterMap.mp h
    rw [(check2bOne_spec _ nd f hx).2]; norm_num
  · rw [(check3Findings_spec _ f h).2.2]; norm_num
  · rw [(check4Findings_spec _ f h).2.2]

lemma riskSum_check1 (nodes : List PyNode) :
    riskSum (check1Findings nodes) =
      ((nodes.countP fun nd => (check1One nd).isSome : ℚ)) * ((3 : ℚ)/10) := by
  induction nodes with
  | nil => simp [check1Findings, riskSum]
  | cons a l ih =>
    unfold check1Findings at ih ⊢
    rw [List.filterMap_cons]
    cases hx : check1One a with
    | none => simp [List.countP_cons, hx, ih]
    | some x =>
      rw [riskSum_cons, (check1One_spec a x hx).2, ih]
      have : (a :: l).countP (fun nd => (check1One nd).isSome) =
          l.countP (fun nd => (check1One nd).isSome) + 1 := by
        simp [List.countP_cons, hx]
      rw [this]
      push_cast
      ring

lemma riskSum_decomp (body : List PyStmt) (code : String) :
    riskSum (allSecurityFindings body code) =
      riskSum (check1Findings (stmtsWalk body)) +
      riskSum (check2Findings (stmtsWalk body)) +
      riskSum (check2bFindings (stmtsWalk body) (conditionalModules (stmtsWalk body))) +
      riskSum (check3Findings code.toList) +
      riskSum (check4Findings (stmtsWalk body)) := by
  unfold allSecurityFindings
  simp only [riskSum_append]

lemma riskSum_check2_nonneg (nodes : List PyNode) :
    0 ≤ riskSum (check2Findings nodes) := by
  refine riskSum_nonneg _ ?_
  intro f hf
  obtain ⟨nd, _, hx⟩ := List.mem_flatMap.mp hf
  rcases check2One_spec nd f hx with ⟨_, h2⟩ | ⟨_, _, h2⟩ <;> rw [h2] <;> norm_num

lemma riskSum_check2b_nonneg (nodes : List PyNode) (cond : List String) :
    0 ≤ riskSum (check2bFindings nodes cond) := by
  refine riskSum_nonneg _ ?_
  intro f hf
  obtain ⟨nd, _, hx⟩ := List.mem_filterMap.mp hf
  rw [(check2bOne_spec _ nd f hx).2]; norm_num

lemma riskSum_check3_nonneg (cs : List Char) :
    0 ≤ riskSum (check3Findings cs) := by
  refine riskSum_nonneg _ ?_
  intro f hf
  rw [(check3Findings_spec _ f hf).2.2]; norm_num

lemma riskSum_check4_nonneg (nodes : List PyNode) :
    0 ≤ riskSum (check4Findings nodes) := by
  refine riskSum_nonneg _ ?_
  intro f hf
  rw [(check4Findings_spec _ f hf).2.2]

/-- C7: a parsable text with at least one call of a denied symbol fails
validation with risk at least 0.3, and with `k` denied-call occurrences the
(capped) risk score is at least `min(1.0, 0.3 * k)`. -/
theorem claim_C7_denied_call_risk (body : List PyStmt) (code : String)
    (hk : 1 ≤ dangerousCallCount body) :
    (validate_code_security (.ok body) code).valid = false ∧
    (3 : ℚ)/10 ≤ (validate_code_security (.ok body) code).risk_score ∧
    min 1 ((3 : ℚ)/10 * (dangerousCallCount body : ℚ)) ≤
      (validate_code_security (.ok body) code).risk_score := by
  have hc1 : riskSum (check1Findings (stmtsWalk body)) =
      ((dangerousCallCount body : ℚ)) * ((3 : ℚ)/10) := riskSum_check1 _
  have hk1 : (1 : ℚ) ≤ (dangerousCallCount body : ℚ) := by exact_mod_cast hk
  have hge : (dangerousCallCount body : ℚ) * ((3 : ℚ)/10) ≤
      riskSum (allSecurityFindings body code) := by
    rw [riskSum_decomp, hc1]
    have h2 := riskSum_check2_nonneg (stmtsWalk body)
    have h2b := riskSum_check2b_nonneg (stmtsWalk body) (conditionalModules (stmtsWalk body))
    have h3 := riskSum_check3_nonneg code.toList
    have h4 := riskSum_check4_nonneg (stmtsWalk body)
    linarith
  have hvalid : (validate_code_security (.ok body) code).valid = false := by
    obtain ⟨nd, hnd, hnd2⟩ := List.countP_pos_iff.mp
      (show 0 < (stmtsWalk body).countP (fun nd => (check1One nd).isSome) from hk)
    obtain ⟨x, hx⟩ := Option.isSome_iff_exists.mp hnd2
    have hmemAll : x ∈ allSecurityFindings body code := by
      unfold allSecurityFindings
      exact List.mem_append_left _ (List.mem_append_left _ (List.mem_append_left _
        (List.mem_append_left _ (List.mem_filterMap.mpr ⟨nd, hnd, hx⟩))))
    have hany : (((allSecurityFindings body code).map Prod.fst).any
        fun i => i.severity == "ERROR") = true := by
      refine List.any_eq_true.mpr ⟨x.1, List.mem_map_of_mem _ hmemAll, ?_⟩
      rw [(check1One_spec nd x hx).1]
      rfl
    rw [sec_ok_valid, hany]
    rfl
  refine ⟨hvalid, ?_, ?_⟩
  · rw [sec_ok_risk]
    refine le_min ?_ (by norm_num)
    calc (3 : ℚ)/10 = 1 * ((3 : ℚ)/10) := by ring
      _ ≤ (dangerousCallCount body : ℚ) * ((3 : ℚ)/10) :=
          mul_le_mul_of_nonneg_right hk1 (by norm_num)
      _ ≤ riskSum (allSecurityFindings body code) := hge
  · rw [sec_ok_risk]
    refine le_min ?_ (min_le_left _ _)
    calc min 1 ((3 : ℚ)/10 * (dangerousCallCount body : ℚ))
        ≤ (3 : ℚ)/10 * (dangerousCallCount body : ℚ) := min_le_right _ _
      _ = (dangerousCallCount body : ℚ) * ((3 : ℚ)/10) := by ring
      _ ≤ riskSum (allSecurityFindings body code) := hge

/-- Witness for C7 at a text whose single statement calls `eval`. -/
theorem claim_C7_witness :
    (validate_code_security (.ok bodyEvalCall) "eval()").valid = false ∧
    (3 : ℚ)/10 ≤ (validate_code_security (.ok bodyEvalCall) "eval()").risk_score ∧
    min 1 ((3 : ℚ)/10 * (dangerousCallCount bodyEvalCall : ℚ)) ≤
      (validate_code_security (.ok bodyEvalCall) "eval()").risk_score :=
  claim_C7_denied_call_risk bodyEvalCall "eval()" (by decide)

lemma mem_all_of_c2 (body : List PyStmt) (code : String) (x : ValidationIssue × ℚ)
    (h : x ∈ check2Findings (stmtsWalk body)) : x ∈ allSecurityFindings body code := by
  unfold allSecurityFindings
  exact List.mem_append_left _ (List.mem_append_left _ (List.mem_append_left _
    (List.mem_append_right _ h)))

lemma mem_all_of_c2b (body : List PyStmt) (code : String) (x : ValidationIssue × ℚ)
    (h : x ∈ check2bFindings (stmtsWalk body) (conditionalModules (stmtsWalk body))) :
    x ∈ allSecurityFindings body code := by
  unfold allSecurityFindings
  exact List.mem_append_left _ (List.mem_append_left _ (List.mem_append_right _ h))

lemma mem_all_of_c3 (body : List PyStmt) (code : String) (x : ValidationIssue × ℚ)
    (h : x ∈ check3Findings code.toList) : x ∈ allSecurityFindings body code := by
  unfold allSecurityFindings
  exact List.mem_append_left _ (List.mem_append_right _ h)

lemma mem_all_of_c1 (body : List PyStmt) (code : String) (x : ValidationIssue × ℚ)
    (h : x ∈ check1Findings (stmtsWalk body)) : x ∈ allSecurityFindings body code := by
  unfold allSecurityFindings
  exact List.mem_append_left _ (List.mem_append_left _ (List.mem_append_left _
    (List.mem_append_left _ h)))

/-- Counterexample to C3: a text importing five unknown modules accumulates
five WARNING-only findings of +0.1 each; the risk score reaches exactly the
0.5 threshold (in IEEE doubles as in rationals, 0.1 added five times is
exactly 0.5) and `0.5 < 0.5` fails, so `valid = false` with not a single
ERROR issue - warning-only accumulation alone does fail validation. -/
theorem claim_C3_counterexample :
    (∀ i ∈ (validate_code_security (.ok bodyFiveUncommon) codeFiveUncommon).issues,
      i.severity = "WARNING") ∧
    (validate_code_security (.ok bodyFiveUncommon) codeFiveUncommon).risk_score
      = (1 : ℚ)/2 ∧
    (validate_code_security (.ok bodyFiveUncommon) codeFiveUncommon).valid = false := by
  have h : allSecurityFindings bodyFiveUncommon codeFiveUncommon =
      [(⟨"WARNING", "security", "Uncommon import: foo_a", 1,
         "Verify foo_a is necessary and safe"⟩, (1 : ℚ)/10),
       (⟨"WARNING", "security", "Uncommon import: foo_b", 1,
         "Verify foo_b is necessary and safe"⟩, (1 : ℚ)/10),
       (⟨"WARNING", "security", "Uncommon import: foo_c", 1,
         "Verify foo_c is necessary and safe"⟩, (1 : ℚ)/10),
       (⟨"WARNING", "security", "Uncommon import: foo_d", 1,
         "Verify foo_d is necessary and safe"⟩, (1 : ℚ)/10),
       (⟨"WARNING", "security", "Uncommon import: foo_e", 1,
         "Verify foo_e is necessary and safe"⟩, (1 : ℚ)/10)] := rfl
  refine ⟨?_, ?_, ?_⟩
  · rw [sec_ok_issues, h]
    intro i hi
    simp only [List.map_cons, List.map_nil, List.mem_cons, List.not_mem_nil,
      or_false] at hi
    rcases hi with rfl | rfl | rfl | rfl | rfl <;> rfl
  · rw [sec_ok_risk, h]
    simp only [riskSum, List.map_cons, List.map_nil, List.sum_cons, List.sum_nil]
    rw [show (1:ℚ)/10 + ((1:ℚ)/10 + ((1:ℚ)/10 + ((1:ℚ)/10 + ((1:ℚ)/10 + 0)))) = 1/2
      from by norm_num]
    exact min_eq_left (by norm_num)
  · rw [sec_ok_valid, h]
    simp only [riskSum, List.map_cons, List.map_nil, List.sum_cons, List.sum_nil,
      List.any_cons, List.any_nil, show ("WARNING" == "ERROR") = false from rfl,
      Bool.or_false, Bool.not_false, Bool.true_and]
    refine decide_eq_false ?_
    rw [show ((1:ℚ)/10 + ((1:ℚ)/10 + ((1:ℚ)/10 + ((1:ℚ)/10 + ((1:ℚ)/10 + 0))))) = 1/2
      from by norm_num, min_eq_left (by norm_num : (1:ℚ)/2 ≤ 1)]
    norm_num

/-- C3 as amended: when every reported finding is WARNING-severity, validation
passes exactly when fewer than five of those findings are uncommon-import
(security-type) warnings - at five such warnings the accumulated risk reaches
0.5 and validation fails although no ERROR was ever produced. -/
theorem claim_C3_amended (body : List PyStmt) (code : String)
    (hw : ∀ i ∈ (validate_code_security (.ok body) code).issues,
      i.severity = "WARNING") :
    ((validate_code_security (.ok body) code).valid = true ↔
      (validate_code_security (.ok body) code).issues.countP
        (fun i => i.issue_type == "security") < 5) := by
  have hWf : ∀ f ∈ allSecurityFindings body code, f.1.severity = "WARNING" := by
    intro f hf
    exact hw f.1 (by rw [sec_ok_issues]; exact List.mem_map_of_mem _ hf)
  have hc1 : check1Findings (stmtsWalk body) = [] := by
    rw [List.eq_nil_iff_forall_not_mem]
    intro x hx
    have hE := (check1One_spec _ x (List.mem_filterMap.mp hx).choose_spec.2).1
    have hW := hWf x (mem_all_of_c1 body code x hx)
    rw [hE] at hW
    exact absurd hW (by decide)
  have hc2b : check2bFindings (stmtsWalk body) (conditionalModules (stmtsWalk body))
      = [] := by
    rw [List.eq_nil_iff_forall_not_mem]
    intro x hx
    have hE := (check2bOne_spec _ _ x (List.mem_filterMap.mp hx).choose_spec.2).1
    have hW := hWf x (mem_all_of_c2b body code x hx)
    rw [hE] at hW
    exact absurd hW (by decide)
  have hc3 : check3Findings code.toList = [] := by
    rw [List.eq_nil_iff_forall_not_mem]
    intro x hx
    have hE := (check3Findings_spec _ x hx).1
    have hW := hWf x (mem_all_of_c3 body code x hx)
    rw [hE] at hW
    exact absurd hW (by decide)
  have h2all : ∀ f ∈ check2Findings (stmtsWalk body),
      f.1.severity = "WARNING" ∧ f.1.issue_type = "security" ∧ f.2 = (1 : ℚ)/10 := by
    intro f hf
    obtain ⟨nd, _, hx⟩ := List.mem_flatMap.mp hf
    rcases check2One_spec nd f hx with ⟨hE, _⟩ | hok
    · have hW := hWf f (mem_all_of_c2 body code f hf)
      rw [hE] at hW
      exact absurd hW (by decide)
    · exact hok
  have hall : allSecurityFindings body code =
      check2Findings (stmtsWalk body) ++ check4Findings (stmtsWalk body) := by
    simp only [allSecurityFindings]
    rw [hc1, hc2b, hc3]
    simp
  have hrisk : riskSum (allSecurityFindings body code) =
      ((check2Findings (stmtsWalk body)).length : ℚ) * ((1 : ℚ)/10) := by
    rw [hall, riskSum_append,
      riskSum_const _ ((1 : ℚ)/10) (fun f hf => (h2all f hf).2.2),
      riskSum_const _ 0 (fun f hf => (check4Findings_spec _ f hf).2.2)]
    ring
  have hcount : (validate_code_security (.ok body) code).issues.countP
      (fun i => i.issue_type == "security") =
      (check2Findings (stmtsWalk body)).length := by
    rw [sec_ok_issues, hall, List.map_append, List.countP_append]
    have hc2cnt : ((check2Findings (stmtsWalk body)).map Prod.fst).countP
        (fun i => i.issue_type == "security") =
        (check2Findings (stmtsWalk body)).length := by
      rw [List.countP_map]
      refine List.countP_eq_length.mpr fun f hf => ?_
      simp only [Function.comp_apply]
      rw [(h2all f hf).2.1]
      rfl
    have hc4cnt : ((check4Findings (stmtsWalk body)).map Prod.fst).countP
        (fun i => i.issue_type == "security") = 0 := by
      rw [List.countP_eq_zero]
      intro i hi
      obtain ⟨f, hf, rfl⟩ := List.mem_map.mp hi
      rw [(check4Findings_spec _ f hf).2.1]
      decide
    rw [hc2cnt, hc4cnt]
    omega
  have hany : (((allSecurityFindings body code).map Prod.fst).any
      fun i => i.severity == "ERROR") = false := by
    rw [List.any_eq_false]
    intro i hi
    obtain ⟨f, hf, rfl⟩ := List.mem_map.mp hi
    rw [hWf f hf]
    decide
  rw [sec_ok_valid, hany, hcount, hrisk]
  simp only [Bool.not_false, Bool.true_and, decide_eq_true_eq]
  constructor
  · intro hlt
    rcases min_lt_iff.mp hlt with h' | h'
    · have : ((check2Findings (stmtsWalk body)).length : ℚ) < 5 := by linarith
      exact_mod_cast this
    · norm_num at h'
  · intro hlt
    have : ((check2Findings (stmtsWalk body)).length : ℚ) < 5 := by exact_mod_cast hlt
    exact min_lt_iff.mpr (Or.inl (by linarith))

/-- Witness for C3's amended statement at a text with a single uncommon
import. -/
theorem claim_C3_witness :
    (validate_code_security (.ok bodyOneUncommon) codeOneUncommon).valid = true ↔
      (validate_code_security (.ok bodyOneUncommon) codeOneUncommon).issues.countP
        (fun i => i.issue_type == "security") < 5 :=
  claim_C3_amended bodyOneUncommon codeOneUncommon (by decide)

/-- C8: per credential-pattern match, the false-positive suppression and the
emission rule of check 3. For every match `m` of a credential pattern `p` in
the text: when the extracted enclosing line matches a safe shape (an
environment-variable lookup or an empty-string assignment, the six
`safe_patterns`), no finding is produced for that match; otherwise check 3
produces exactly the ERROR finding with +0.3 risk whose line number is one
plus the count of newlines before the match start, that finding belongs to the
check-3 findings of the text, and its issue is reported by the security
validator for every parse tree of the text. -/
theorem claim_C8_credential_line_rule (code : String) (p : CredPattern) (m : Nat × Nat)
    (hp : p ∈ hardcodedPatterns) (hm : m ∈ credMatches p code.toList) :
    (isSafeLine (enclosingLine code.toList m) = true →
      matchFinding p.message code.toList m = Option.none) ∧
    (isSafeLine (enclosingLine code.toList m) = false →
      matchFinding p.message code.toList m =
        some (⟨"ERROR", "security", p.message, matchLineNumber code.toList m,
               "Use environment variables or config instead"⟩, (3 : ℚ)/10) ∧
      (⟨"ERROR", "security", p.message, matchLineNumber code.toList m,
        "Use environment variables or config instead"⟩, (3 : ℚ)/10)
        ∈ check3Findings code.toList ∧
      ∀ body, (⟨"ERROR", "security", p.message, matchLineNumber code.toList m,
        "Use environment variables or config instead"⟩ : ValidationIssue)
        ∈ (validate_code_security (.ok body) code).issues) := by
  constructor
  · intro hs
    simp only [matchFinding]
    rw [hs]
    simp
  · intro hs
    have hmf : matchFinding p.message code.toList m =
        some (⟨"ERROR", "security", p.message, matchLineNumber code.toList m,
               "Use environment variables or config instead"⟩, (3 : ℚ)/10) := by
      simp only [matchFinding]
      rw [hs]
      simp
    have h3 : (⟨"ERROR", "security", p.message, matchLineNumber code.toList m,
        "Use environment variables or config instead"⟩, (3 : ℚ)/10)
        ∈ check3Findings code.toList :=
      List.mem_flatMap.mpr ⟨p, hp, List.mem_filterMap.mpr ⟨m, hm, hmf⟩⟩
    refine ⟨hmf, h3, fun body => ?_⟩
    rw [sec_ok_issues]
    exact List.mem_map_of_mem _ (mem_all_of_c3 body code _ h3)

/-- Witness for C8 at a credential-shaped assignment whose line also holds an
`os.getenv(` call: the match is found and suppressed. -/
theorem claim_C8_witness :
    matchFinding pwPattern.message codeSafeCred.toList (0, 16) = Option.none :=
  (claim_C8_credential_line_rule codeSafeCred pwPattern (0, 16)
    (by decide) (by decide)).1 (by decide)
